import Mathlib

/-!
Shallow embedding of the core of `simple-cwl-xenon-service` (the Cerise
back end) and proofs about it.

Source files embedded:
  * `src/cerise/back_end/input_file.py`       (class InputFile)
  * `src/cerise/back_end/cwl.py`              (get_secondary_files,
    get_files_from_binding, get_cwltool_result)
  * `src/cerise/back_end/remote_api.py`       (RemoteApi.__init__,
    translate_runner_location, translate_workflow, _translate_api_step)
  * `src/cerise/back_end/remote_job_files.py` (destage_job_output,
    update_job, _read_remote_file, _create_input_filename)

Python values parsed from YAML/JSON are modelled by `PyVal`; Python
exceptions by `PyErr` together with `Except`.  Machinery that lives outside
the repository (yaml/json (de)serialisation, the cerulean filesystem
library, the SQLite job store) enters only at the functions' boundaries:
each embedded function takes the already-parsed values and the relevant
file contents or filesystem state as explicit arguments.
-/

/-- A Python value as produced by `yaml.safe_load` / `json.loads` on CWL
documents: None, booleans, integers, strings, lists and string-keyed
dicts.  A dict is an association list with (as in Python) unique keys;
iteration order is insertion order. -/
inductive PyVal where
  | none
  | bool (b : Bool)
  | int (n : Int)
  | str (s : String)
  | list (xs : List PyVal)
  | dict (entries : List (String × PyVal))

/-- A Python exception, by class and (formatted) message. -/
inductive PyErr where
  | runtimeError (msg : String)
  | typeError (msg : String)
  | keyError (key : String)
  | attributeError (msg : String)
  | nameError (name : String)
  | exception (msg : String)
deriving DecidableEq

/-- `d[k]` lookup for the embedded dict: first (and, with unique keys, only)
entry with key `k`. -/
def pyGet (d : List (String × PyVal)) (k : String) : Option PyVal :=
  match d with
  | [] => Option.none
  | (k', v) :: rest => if k' = k then some v else pyGet rest k

/-- Python `d.get(k, dflt)`. -/
def pyGetD (d : List (String × PyVal)) (k : String) (dflt : PyVal) : PyVal :=
  (pyGet d k).getD dflt

/-- Python `d.get(k) == s` / `k in d and d[k] == s` for a string literal
`s`: true iff `k` maps to exactly that string (comparison of a non-string
value with a string literal is `False` in Python). -/
def pyGetEqStr (d : List (String × PyVal)) (k : String) (s : String) : Bool :=
  match pyGet d k with
  | some (.str t) => t = s
  | _ => false

/-- An element of `pyGet`'s result is structurally smaller than the
association list it came from (used for termination of the recursive
CWL traversals below). -/
theorem pyGet_sizeOf_lt {d : List (String × PyVal)} {k : String} {v : PyVal}
    (h : pyGet d k = some v) : sizeOf v < sizeOf d := by
  induction d with
  | nil => simp [pyGet] at h
  | cons hd tl ih =>
    obtain ⟨k', v'⟩ := hd
    rw [pyGet] at h
    by_cases hk : k' = k
    · simp [hk] at h
      subst h
      simp
      omega
    · simp [hk] at h
      have := ih h
      simp
      omega

/-- `class InputFile` (src/cerise/back_end/input_file.py).  Fields exactly
as `__init__` sets them: `name`, `location`, `content`, `secondary_files`.
NOTE: the class has no `index` parameter or attribute; see
`get_files_from_binding` below. -/
inductive InputFile where
  | mk (name : Option String) (location : PyVal) (content : Option PyVal)
       (secondary_files : List InputFile)

def InputFile.name : InputFile → Option String
  | .mk n _ _ _ => n

def InputFile.location : InputFile → PyVal
  | .mk _ l _ _ => l

def InputFile.content : InputFile → Option PyVal
  | .mk _ _ c _ => c

def InputFile.secondary_files : InputFile → List InputFile
  | .mk _ _ _ s => s

mutual

/-- `get_secondary_files` (src/cerise/back_end/cwl.py lines 50-72).
Iterates over the entries of a `secondaryFiles` list; a File-class dict
becomes an `InputFile` (recursing into its own `secondaryFiles` when the
key is present), a Directory-class dict raises, any other dict raises,
and a non-dict entry is skipped (`if isinstance(value, dict)` has no
`else`). -/
def get_secondary_files (l : List PyVal) : Except PyErr (List InputFile) :=
  match l with
  | [] => .ok []
  | v :: vs => do
    let h ← gsfEntry v
    let t ← get_secondary_files vs
    .ok (h ++ t)
termination_by sizeOf l

/-- One iteration of `get_secondary_files`'s loop body: the list of
`InputFile`s appended to `result` for one entry (empty for a skipped
non-dict entry), or the exception raised. -/
def gsfEntry (v : PyVal) : Except PyErr (List InputFile) :=
  match v with
  | .dict d =>
    if pyGetEqStr d "class" "File" then
      -- InputFile(None, value['location'], None, []) -- KeyError if absent
      match pyGet d "location" with
      | Option.none => .error (.keyError "location")
      | some loc =>
        -- if 'secondaryFiles' in value: recurse on value['secondaryFiles']
        match hsv : pyGet d "secondaryFiles" with
        | Option.none => .ok [InputFile.mk Option.none loc Option.none []]
        | some sv => do
          let sf ← gsfIter sv
          .ok [InputFile.mk Option.none loc Option.none sf]
    else if pyGetEqStr d "class" "Directory" then
      .error (.runtimeError "Directory inputs are not yet supported, sorry")
    else
      .error (.runtimeError
        "Invalid secondaryFiles entry: must be a File or a Directory")
  | _ => .ok []
termination_by sizeOf v
decreasing_by
  simp only [PyVal.dict.sizeOf_spec]
  have := pyGet_sizeOf_lt hsv
  omega

/-- `get_secondary_files(x)` for an arbitrary value `x` (the source passes
`value['secondaryFiles']` and `value.get('secondaryFiles', [])` without a
type check; Python's `for` then iterates whatever it got): a list is
processed element-wise; iterating a dict yields its (string) keys and
iterating a string yields 1-character strings, none of which is a dict, so
every element is skipped and the result is empty; other values are not
iterable and raise TypeError. -/
def gsfIter (v : PyVal) : Except PyErr (List InputFile) :=
  match v with
  | .list l => get_secondary_files l
  | .dict _ => .ok []
  | .str _ => .ok []
  | _ => .error (.typeError "object is not iterable")
termination_by sizeOf v

end

/-- The loop body of `get_files_from_binding`'s `elif isinstance(value, list)`
branch (src/cerise/back_end/cwl.py lines 93-98): scans the list; for every
File-class dict element it computes the secondary files and evaluates
`val['location']`, and then executes
`InputFile(name, val['location'], None, secondary_files, i)`.
`InputFile.__init__` (src/cerise/back_end/input_file.py) accepts only
`(self, name, location, content, secondary_files)`, so this call passes one
positional argument too many and Python raises TypeError before any
`InputFile` is constructed. -/
def gffbList (name : String) (l : List PyVal) : Except PyErr (List InputFile) :=
  match l with
  | [] => .ok []
  | val :: rest =>
    match val with
    | .dict d =>
      if pyGetEqStr d "class" "File" then do
        let _sf ← gsfIter (pyGetD d "secondaryFiles" (.list []))
        match pyGet d "location" with
        | Option.none => .error (.keyError "location")
        | some _loc =>
          .error (.typeError
            "__init__() takes 5 positional arguments but 6 were given")
      else gffbList name rest
    | _ => gffbList name rest

/-- One iteration of `get_files_from_binding`'s outer loop: the
`InputFile`s contributed by one binding entry `(name, value)`. -/
def gffbValue (name : String) (value : PyVal) : Except PyErr (List InputFile) :=
  match value with
  | .dict d =>
    if pyGetEqStr d "class" "File" then do
      -- get_secondary_files(value.get('secondaryFiles', []))
      let sf ← gsfIter (pyGetD d "secondaryFiles" (.list []))
      -- InputFile(name, value['location'], None, secondary_files)
      match pyGet d "location" with
      | Option.none => .error (.keyError "location")
      | some loc => .ok [InputFile.mk (some name) loc Option.none sf]
    else .ok []
  | .list xs => gffbList name xs
  | _ => .ok []

/-- The outer loop of `get_files_from_binding` over `cwl_binding.items()`. -/
def gffbEntries (entries : List (String × PyVal)) :
    Except PyErr (List InputFile) :=
  match entries with
  | [] => .ok []
  | (name, value) :: rest => do
    let files ← gffbValue name value
    let tail ← gffbEntries rest
    .ok (files ++ tail)

/-- `get_files_from_binding` (src/cerise/back_end/cwl.py lines 75-100).
`None` yields the empty list (the `if cwl_binding is not None` guard); a
dict is processed entry by entry; any other value raises AttributeError at
`.items()`. -/
def get_files_from_binding (cwl_binding : PyVal) :
    Except PyErr (List InputFile) :=
  match cwl_binding with
  | .none => .ok []
  | .dict d => gffbEntries d
  | _ => .error (.attributeError "object has no attribute: items")

/-! ### Python string primitives -/

/-- `needle in hay` on lists of characters: some suffix of `hay` starts
with `needle`. -/
def listHasInfix (needle : List Char) : List Char → Bool
  | [] => needle.isEmpty
  | c :: rest => needle.isPrefixOf (c :: rest) || listHasInfix needle rest

/-- Python's `needle in hay` substring test. -/
def pyInStr (needle hay : String) : Bool :=
  listHasInfix needle.data hay.data

/-- Python's `s.startswith(pre)`. -/
def pyStartsWith (s pre : String) : Bool :=
  pre.data.isPrefixOf s.data

/-- Python's slice `s[n:]` (by characters). -/
def pyDrop (s : String) (n : Nat) : String :=
  ⟨s.data.drop n⟩

/-- Whitespace as Python's `str.lstrip()` strips it (the ASCII cases;
the strings fed to `lstrip` in this code base are command lines). -/
def pyIsSpace (c : Char) : Bool :=
  c = ' ' || c = '\t' || c = '\n' || c = '\x0d' || c = '\x0b' || c = '\x0c'

/-- Python's `s.lstrip()`. -/
def pyLstrip (s : String) : String :=
  ⟨s.data.dropWhile pyIsSpace⟩

/-- The scan of Python's `s.replace(old, new)` for a non-empty pattern
`p :: ps`: left-to-right, non-overlapping; after a match the scan resumes
past the matched characters (the replacement text is not rescanned). -/
def pyReplaceGo (p : Char) (ps rep : List Char) : List Char → List Char
  | [] => []
  | c :: rest =>
    if (p :: ps).isPrefixOf (c :: rest) then
      rep ++ pyReplaceGo p ps rep (rest.drop ps.length)
    else
      c :: pyReplaceGo p ps rep rest
termination_by l => l.length
decreasing_by
  · have := List.length_drop ps.length rest
    simp
    omega
  · simp

/-- Python's `s.replace(old, new)`: every non-overlapping occurrence,
left to right.  (The patterns used in this code base are the non-empty
macro tokens, so the empty-pattern case is not exercised.) -/
def pyReplace (s pat rep : String) : String :=
  match pat.data with
  | [] => s
  | p :: ps => ⟨pyReplaceGo p ps rep.data s.data⟩

/-- The scan of Python's `s.replace(old, new, 1)`: only the first
occurrence is replaced, the rest of the string is kept verbatim. -/
def pyReplace1Go (p : Char) (ps rep : List Char) : List Char → List Char
  | [] => []
  | c :: rest =>
    if (p :: ps).isPrefixOf (c :: rest) then rep ++ rest.drop ps.length
    else c :: pyReplace1Go p ps rep rest

/-- Python's `s.replace(old, new, 1)`. -/
def pyReplace1 (s pat rep : String) : String :=
  match pat.data with
  | [] => s
  | p :: ps => ⟨pyReplace1Go p ps rep.data s.data⟩

/-- The scan of Python's `s.split(sep)` for a one-character separator:
`acc` holds the current field reversed. -/
def pySplitGo (sep : Char) : List Char → List Char → List String
  | [], acc => [⟨acc.reverse⟩]
  | c :: rest, acc =>
    if c = sep then ⟨acc.reverse⟩ :: pySplitGo sep rest []
    else pySplitGo sep rest (c :: acc)

/-- Python's `s.split(sep)` with a one-character separator: always at
least one field (`''.split('/') == ['']`). -/
def pySplit (s : String) (sep : Char) : List String :=
  pySplitGo sep s.data []

/-- Python's `'/'.join(parts)`. -/
def joinSlash : List String → String
  | [] => ""
  | [s] => s
  | s :: rest => s ++ "/" ++ joinSlash rest

/-- The scan of Python's `str.splitlines`: every line terminator (`\n`,
`\r`, `\r\n`) ends a line; a last segment without terminator forms a line
only when non-empty.  (Python also treats some rarer control and Unicode
characters as boundaries; the logs this code base feeds in use the three
handled here.) -/
def splitlinesGo : List Char → List Char → List String
  | [], acc => if acc.isEmpty then [] else [⟨acc.reverse⟩]
  | '\x0d' :: '\n' :: rest, acc => ⟨acc.reverse⟩ :: splitlinesGo rest []
  | '\x0d' :: rest, acc => ⟨acc.reverse⟩ :: splitlinesGo rest []
  | '\n' :: rest, acc => ⟨acc.reverse⟩ :: splitlinesGo rest []
  | c :: rest, acc => splitlinesGo rest (c :: acc)

/-- Python's `s.splitlines()`. -/
def pySplitlines (s : String) : List String :=
  splitlinesGo s.data []

/-! ### Result classifier (cwl.py) -/

/-- Modelled from the spec: the job lifecycle states of
`cerise.job_store.job_state.JobState` (section 4.7 of the design; the
module itself is not among the staged source files).  `get_cwltool_result`
only ever returns one of `PERMANENT_FAILURE`, `TEMPORARY_FAILURE`,
`SUCCESS` and `SYSTEM_ERROR`. -/
inductive JobState where
  | SUBMITTED
  | STAGING_IN
  | WAITING
  | RUNNING
  | FINISHED
  | STAGING_OUT
  | SUCCESS
  | PERMANENT_FAILURE
  | TEMPORARY_FAILURE
  | SYSTEM_ERROR
  | CANCELLED
  | STAGING_IN_CR
  | WAITING_CR
  | RUNNING_CR
  | STAGING_OUT_CR
deriving DecidableEq

/-- `get_cwltool_result` (src/cerise/back_end/cwl.py lines 103-124):
substring rules against the runner's log, in the source's order. -/
def get_cwltool_result (cwltool_log : String) : JobState :=
  if pyInStr "Tool definition failed validation:" cwltool_log then
    .PERMANENT_FAILURE
  else if pyInStr "Final process status is permanentFail" cwltool_log then
    .PERMANENT_FAILURE
  else if pyInStr "Final process status is temporaryFail" cwltool_log then
    .TEMPORARY_FAILURE
  else if pyInStr "Final process status is success" cwltool_log then
    .SUCCESS
  else
    .SYSTEM_ERROR

/-! ### Filename sanitizer (remote_job_files.py) -/

/-- The character class `[a-zA-Z0-9_.-]` of `_create_input_filename`'s
regex: characters NOT matched by the substitution pattern. -/
def sanitizerKeeps (c : Char) : Bool :=
  ('a' ≤ c && c ≤ 'z') || ('A' ≤ c && c ≤ 'Z') || ('0' ≤ c && c ≤ '9') ||
  c = '_' || c = '.' || c = '-'

/-- `dropWhile` never lengthens a list (termination helper). -/
theorem dropWhile_length_le {α : Type} (p : α → Bool) (l : List α) :
    (l.dropWhile p).length ≤ l.length := by
  induction l with
  | nil => simp
  | cons c rest ih =>
    rw [List.dropWhile_cons]
    by_cases h : p c
    · simp only [h, if_true]
      exact Nat.le_succ_of_le ih
    · simp [h]

/-- `re.compile('[^a-zA-Z0-9_.-]+').sub('_', s)`: every maximal run of
characters outside the class becomes a single `_`. -/
def pyCollapse : List Char → List Char
  | [] => []
  | c :: rest =>
    if sanitizerKeeps c then c :: pyCollapse rest
    else '_' :: pyCollapse (rest.dropWhile (fun d => !sanitizerKeeps d))
termination_by l => l.length
decreasing_by
  · simp
  · have := dropWhile_length_le (fun d => !sanitizerKeeps d) rest
    simp
    omega

/-- `_create_input_filename` (src/cerise/back_end/remote_job_files.py
lines 261-283).  The four `result.replace(...)` statements discard their
results (Python strings are immutable), so they have no effect; the regex
substitution that follows replaces those four characters anyway.  Then:
if the collapsed form is longer than 39 characters, keep its first 18 and
last 18 characters joined by `___`; finally prepend the unique counter
string (the source's first parameter) and `_`. -/
def _create_input_filename (uniquePfx orig_path : String) : String :=
  let result := pyCollapse orig_path.data
  let result :=
    if 39 < result.length then
      result.take 18 ++ ['_', '_', '_'] ++ result.drop (result.length - 18)
    else result
  ⟨uniquePfx.data ++ '_' :: result⟩

/-! ### RemoteApi (remote_api.py) -/

/-- `RemoteApi.translate_runner_location` (src/cerise/back_end/remote_api.py
lines 73-90).  `api_dir` stands for `str(self._api_dir)` and `username` for
`self._username` (`Option.none` models Python `None`); `if self._username:`
is Python truthiness, so an empty user name also skips the second
substitution.  Both substitutions are `str.replace` without a count
argument, i.e. they replace every occurrence. -/
def translate_runner_location (api_dir : String) (username : Option String)
    (runner_location : String) : String :=
  let actual_location := pyReplace runner_location "$CERISE_API" api_dir
  match username with
  | some u =>
    if u.length ≠ 0 then pyReplace actual_location "$CERISE_USERNAME" u
    else actual_location
  | Option.none => actual_location

/-- Python dict assignment `d[k] = v`: an existing key keeps its position,
a new key is appended. -/
def dictSet (d : List (String × PyVal)) (k : String) (v : PyVal) :
    List (String × PyVal) :=
  match d with
  | [] => [(k, v)]
  | (k', v') :: rest =>
    if k' = k then (k', v) :: rest else (k', v') :: dictSet rest k v

/-- One step of `RemoteApi.translate_workflow`'s loop (src/cerise/back_end/
remote_api.py lines 109-115) on a `(step name, step)` pair:
`step['run']` must be a string; it is split on `/`, the first segment
names the project, `steps_dir` is the cerulean path
`self._api_dir / project / 'steps'`, and the new `run` value is
`str(steps_dir) + '/' + '/'.join(step_parts)` — note: ALL of the original
segments, the project name included, are joined back on. -/
def translate_workflow_step (api_dir : String) (nv : String × PyVal) :
    Except PyErr (String × PyVal) :=
  match nv.2 with
  | .dict d =>
    match pyGet d "run" with
    | some (.str run) =>
      let step_parts := pySplit run '/'
      let project := step_parts.headD ""
      let steps_dir := api_dir ++ "/" ++ project ++ "/steps"
      .ok (nv.1, .dict (dictSet d "run"
        (.str (steps_dir ++ "/" ++ joinSlash step_parts))))
    | some _ => .error (.runtimeError "Invalid step in workflow")
    | Option.none => .error (.keyError "run")
  | _ => .error (.typeError "step is not subscriptable")

/-- `RemoteApi.translate_workflow` (src/cerise/back_end/remote_api.py lines
92-116) after the external boundaries: `workflow` is the mapping
`yaml.safe_load` produced from the raw bytes, and the returned mapping is
what `json.dumps` then serialises back to bytes.  No `steps` key is a
RuntimeError; a non-dict `steps` value fails at `.items()`; each step's
`run` is rewritten in place. -/
def translate_workflow (api_dir : String)
    (workflow : List (String × PyVal)) :
    Except PyErr (List (String × PyVal)) :=
  match pyGet workflow "steps" with
  | Option.none => .error (.runtimeError "Workflow contains no steps")
  | some (.dict steps) => do
    let steps' ← steps.mapM (translate_workflow_step api_dir)
    .ok (dictSet workflow "steps" (.dict steps'))
  | some _ => .error (.attributeError "object has no attribute: items")

/-- `RemoteApi._translate_api_step` (src/cerise/back_end/remote_api.py
lines 160-182) after the external boundaries: `files_dir` stands for
`str(remote_project_dir / 'files')` and `cwlfile` for the mapping parsed
from the step file.  For a CommandLineTool: a `baseCommand` string whose
`lstrip()` starts with `$CERISE_API_FILES` gets `replace(..., 1)` (first
occurrence only); every element of an `arguments` list gets `replace(...)`
with no count (every occurrence).  A non-string `baseCommand` fails at
`.lstrip()`; a non-list `arguments` value reaches
`RuntimeError(... .format(filename))`, but `filename` is not defined in
this function, so Python raises NameError while building that message; a
non-string argument fails at `.replace`. -/
def _translate_api_step (files_dir : String)
    (cwlfile : List (String × PyVal)) :
    Except PyErr (List (String × PyVal)) :=
  if pyGetEqStr cwlfile "class" "CommandLineTool" then do
    let cwl1 ←
      match pyGet cwlfile "baseCommand" with
      | some (.str base) =>
        if pyStartsWith (pyLstrip base) "$CERISE_API_FILES" then
          .ok (dictSet cwlfile "baseCommand"
            (.str (pyReplace1 base "$CERISE_API_FILES" files_dir)))
        else .ok cwlfile
      | some _ => .error (.attributeError "object has no attribute: lstrip")
      | Option.none => .ok cwlfile
    match pyGet cwl1 "arguments" with
    | Option.none => .ok cwl1
    | some (.list args) => do
      let newargs ← args.mapM (fun a =>
        match a with
        | .str s =>
          Except.ok (PyVal.str (pyReplace s "$CERISE_API_FILES" files_dir))
        | _ =>
          Except.error (PyErr.attributeError
            "object has no attribute: replace"))
      .ok (dictSet cwl1 "arguments" (.list newargs))
    | some _ => .error (.nameError "filename")
  else .ok cwlfile

/-- A remote directory tree as the set (list) of existing directories,
each a path given as its list of segments. -/
abbrev RemoteFS := List (List String)

/-- Every non-empty ancestor of a path, the path itself included, shortest
first. -/
def pathAncestors (p : List String) : List (List String) :=
  (List.range p.length).map (fun i => p.take (i + 1))

/-- Modelled from the spec: the filesystem capability's
`mkdir(mode, parents=True, exists_ok=True)` (section 6 lists `mkdir(mode,
parents, exists_ok)` among the external filesystem operations; the
cerulean library providing it is an external collaborator).  With
`parents=True` every missing ancestor directory is created as well, and
with `exists_ok=True` the call never fails. -/
def mkdirParentsExistsOk (fs : RemoteFS) (p : List String) : RemoteFS :=
  fs ++ (pathAncestors p).filter (fun q => ¬ q ∈ fs)

/-- The directory-creating effect of `RemoteApi.__init__`
(src/cerise/back_end/remote_api.py lines 22-47): with
`self._api_dir = self._basedir / 'api'`, line 47 runs
`self._api_dir.mkdir(0o750, parents=True, exists_ok=True)`.
Its docstring says the constructor "refuses to create the top-level
directory", but `parents=True` creates `self._basedir` too whenever it is
missing, and `exists_ok=True` means the call cannot fail. -/
def RemoteApi_init_fs (fs : RemoteFS) (basedir : List String) : RemoteFS :=
  mkdirParentsExistsOk fs (basedir ++ ["api"])

/-! ### RemoteJobFiles (remote_job_files.py) -/

/-- An output file as `destage_job_output` returns it: the resolved
`InputFile` after its `location` has been rewritten relative to the work
directory and a `source` attribute (the absolute remote path) has been
attached.  The untouched `name` and `secondary_files` fields are carried
along. -/
structure OutputFile where
  name : Option String
  location : String
  source : String
  secondary_files : List InputFile

/-- The check-and-rewrite applied to one resolved output file inside
`destage_job_output`'s loop (src/cerise/back_end/remote_job_files.py lines
125-137): the location must be a string starting with
`'file://' + str(work_dir) + '/'` — otherwise the generic `Exception` with
the unexpected-location message is raised (a non-string location would
fail at `.startswith`) — and is then cut down to the part after that
prefix; `source` becomes `work_dir / location`. -/
def destageFile (work_dir : String) (f : InputFile) :
    Except PyErr OutputFile :=
  let pfx := "file://" ++ work_dir ++ "/"
  match f.location with
  | .str loc =>
    if pyStartsWith loc pfx then
      let rel := pyDrop loc pfx.length
      .ok ⟨f.name, rel, work_dir ++ "/" ++ rel, f.secondary_files⟩
    else
      .error (.exception
        ("Unexpected output location in cwl-runner output: " ++ loc ++
         ", expected it to start with: " ++ pfx))
  | _ => .error (.attributeError "object has no attribute: startswith")

/-- `destage_job_output`'s loop over `get_files_from_binding(outputs)`:
`output_files` is built up one file at a time and only returned whole; a
raise inside the loop discards everything accumulated so far (`Except`'s
error result carries no list). -/
def destageLoop (work_dir : String) (files : List InputFile) :
    Except PyErr (List OutputFile) :=
  match files with
  | [] => .ok []
  | f :: rest => do
    let o ← destageFile work_dir f
    let os ← destageLoop work_dir rest
    .ok (o :: os)

/-- `RemoteJobFiles.destage_job_output` (src/cerise/back_end/
remote_job_files.py lines 108-145) after the external boundaries:
`work_dir` stands for `str(self._basedir / 'jobs' / job_id / 'work')` and
`remote_output` for the job's stored remote-output text after parsing —
`Option.none` models `job.remote_output == ''` (that branch only logs an
error and returns the empty list), `some v` models
`json.loads(job.remote_output) == v`. -/
def destage_job_output (work_dir : String) (remote_output : Option PyVal) :
    Except PyErr (List OutputFile) :=
  match remote_output with
  | Option.none => .ok []
  | some outputs => do
    let files ← get_files_from_binding outputs
    destageLoop work_dir files

/-- The fields of a stored job that `update_job` touches. -/
structure JobRec where
  remote_output : String
  remote_error : String
deriving DecidableEq

/-- `RemoteJobFiles._read_remote_file` (src/cerise/back_end/
remote_job_files.py lines 234-246): the remote file's content, or empty
bytes when the file does not exist (`FileNotFoundError` is caught, so the
read never raises).  `Option.none` models a missing remote file; the bytes
are carried as their decoded text. -/
def _read_remote_file (file : Option String) : String :=
  match file with
  | some content => content
  | Option.none => ""

/-- `RemoteJobFiles.update_job` (src/cerise/back_end/remote_job_files.py
lines 158-182) after the external boundaries: `stdout_file` and
`stderr_file` are the contents of the job's remote `stdout.txt` and
`stderr.txt` (`Option.none` = missing file).  Returns the updated job
record together with the list of lines passed to `job.debug` (the slice
`lines[first_new_line:]`), the function's only other observable effect. -/
def update_job (stdout_file stderr_file : Option String) (job : JobRec) :
    JobRec × List String :=
  let output := _read_remote_file stdout_file
  let job := if 0 < output.length then
      { job with remote_output := output }
    else job
  let log := _read_remote_file stderr_file
  if 0 < log.length then
    let lines := pySplitlines log
    let last_lines := pySplitlines job.remote_error
    let first_new_line := last_lines.length
    ({ job with remote_error := log }, lines.drop first_new_line)
  else (job, [])

/-! ### Claim theorems -/

/-- C1: the claim's example binding
`{"a": {"class":"File","location":"f1"}, "b":[{"class":"File","location":"f2"}, {"class":"File","location":"f3"}]}`
does NOT yield three InputFile entries: `InputFile.__init__` has no `index`
parameter, so the five-argument constructor call in the list branch raises
TypeError at the first list element and `get_files_from_binding` produces
no list at all. -/
theorem get_files_from_binding_list_raises :
    get_files_from_binding (.dict [
      ("a", .dict [("class", .str "File"), ("location", .str "f1")]),
      ("b", .list [.dict [("class", .str "File"), ("location", .str "f2")],
                   .dict [("class", .str "File"), ("location", .str "f3")]])])
    = .error (.typeError
        "__init__() takes 5 positional arguments but 6 were given") := by
  simp +decide [get_files_from_binding, gffbEntries, gffbValue, gffbList,
    gsfIter, get_secondary_files, pyGetD, pyGet, pyGetEqStr,
    Bind.bind, Except.bind]

/-- C9: with a remote filesystem on which the configured base directory
`/home/cerise` does not exist, `RemoteApi.__init__` does not fail: its
`mkdir(0o750, parents=True, exists_ok=True)` on `basedir / 'api'` silently
creates the missing base directory itself (and the `api` directory under
it), contradicting the constructor's own docstring ("refuses to create the
top-level directory"). -/
theorem RemoteApi_init_creates_basedir :
    ¬ ["home", "cerise"] ∈ ([] : RemoteFS) ∧
    ["home", "cerise"] ∈ RemoteApi_init_fs [] ["home", "cerise"] ∧
    ["home", "cerise", "api"] ∈ RemoteApi_init_fs [] ["home", "cerise"] := by
  refine ⟨by simp, ?_, ?_⟩ <;>
    simp [RemoteApi_init_fs, mkdirParentsExistsOk, pathAncestors,
      List.range, List.range.loop]

/-- C5: `get_cwltool_result` classifies by strict priority: a log with the
tool-validation-failure marker or the permanentFail marker is a permanent
failure (whatever else it contains, in particular also with a success
marker present); otherwise the temporaryFail marker gives a temporary
failure; otherwise the success marker gives success; with none of the four
markers the outcome is the system error. -/
theorem get_cwltool_result_priority (log : String) :
    ((pyInStr "Tool definition failed validation:" log = true ∨
      pyInStr "Final process status is permanentFail" log = true) →
      get_cwltool_result log = .PERMANENT_FAILURE) ∧
    (pyInStr "Tool definition failed validation:" log = false →
      pyInStr "Final process status is permanentFail" log = false →
      pyInStr "Final process status is temporaryFail" log = true →
      get_cwltool_result log = .TEMPORARY_FAILURE) ∧
    (pyInStr "Tool definition failed validation:" log = false →
      pyInStr "Final process status is permanentFail" log = false →
      pyInStr "Final process status is temporaryFail" log = false →
      pyInStr "Final process status is success" log = true →
      get_cwltool_result log = .SUCCESS) ∧
    (pyInStr "Tool definition failed validation:" log = false →
      pyInStr "Final process status is permanentFail" log = false →
      pyInStr "Final process status is temporaryFail" log = false →
      pyInStr "Final process status is success" log = false →
      get_cwltool_result log = .SYSTEM_ERROR) := by
  refine ⟨?_, ?_, ?_, ?_⟩
  · rintro (h | h)
    · simp [get_cwltool_result, h]
    · by_cases hv : pyInStr "Tool definition failed validation:" log <;>
        simp [get_cwltool_result, h, hv]
  · intro h1 h2 h3
    simp [get_cwltool_result, h1, h2, h3]
  · intro h1 h2 h3 h4
    simp [get_cwltool_result, h1, h2, h3, h4]
  · intro h1 h2 h3 h4
    simp [get_cwltool_result, h1, h2, h3, h4]

/-- C5 witness: a log holding both the validation-failure and the success
marker classifies as permanent failure; a marker-free log classifies as
system error. -/
theorem get_cwltool_result_priority_witness :
    get_cwltool_result
      "Tool definition failed validation: x Final process status is success"
      = .PERMANENT_FAILURE ∧
    get_cwltool_result "no recognizable marker here" = .SYSTEM_ERROR :=
  ⟨(get_cwltool_result_priority _).1 (Or.inl (by decide)),
   (get_cwltool_result_priority _).2.2.2 (by decide) (by decide) (by decide)
     (by decide)⟩

/-- C10: when the remote stdout file is missing or empty and the remote
stderr file is missing or empty, `update_job` neither raises nor changes
the job record (and passes no lines to `job.debug`); reading a missing
remote file yields empty content rather than raising. -/
theorem update_job_missing_files_frame (job : JobRec)
    (so se : Option String)
    (hso : so = Option.none ∨ so = some "")
    (hse : se = Option.none ∨ se = some "") :
    update_job so se job = (job, []) ∧ _read_remote_file Option.none = "" := by
  rcases hso with h | h <;> rcases hse with h' | h' <;> subst h h' <;>
    simp [update_job, _read_remote_file, pySplitlines, splitlinesGo]

/-- C10 witness: a concrete job polled with a missing stdout file and an
empty stderr file is returned unchanged. -/
theorem update_job_missing_files_frame_witness :
    update_job Option.none (some "") ⟨"out", "err"⟩ = (⟨"out", "err"⟩, []) ∧
    _read_remote_file Option.none = "" :=
  update_job_missing_files_frame ⟨"out", "err"⟩ Option.none (some "")
    (Or.inl rfl) (Or.inr rfl)

/-- Strings with equal character data are equal. -/
theorem strDataEq {a b : String} (h : a.data = b.data) : a = b := by
  cases a with
  | mk d1 =>
    cases b with
    | mk d2 =>
      have hd : d1 = d2 := h
      rw [hd]

/-- C7: the filename sanitizer.  Part one: for a fixed original path, two
counter strings of equal length but different content always produce
different filenames (the counter is prepended in front of a tail that
depends on the path alone).  Part two: when the character-class-collapsed
form of the path is longer than 39 characters, the part after the
`<counter>_` prefix is exactly the collapsed form's first 18 characters,
the separator `___`, and its last 18 characters. -/
theorem _create_input_filename_spec :
    (∀ c1 c2 p : String, c1.length = c2.length → c1 ≠ c2 →
      _create_input_filename c1 p ≠ _create_input_filename c2 p) ∧
    (∀ c p : String, 39 < (pyCollapse p.data).length →
      _create_input_filename c p = ⟨c.data ++ '_' ::
        ((pyCollapse p.data).take 18 ++ ['_', '_', '_'] ++
         (pyCollapse p.data).drop ((pyCollapse p.data).length - 18))⟩) := by
  constructor
  · intro c1 c2 p hlen hne heq
    apply hne
    unfold _create_input_filename at heq
    cases c1 with
    | mk d1 =>
      cases c2 with
      | mk d2 =>
        have heqd := congrArg String.data heq
        have hdl : d1.length = d2.length := by
          simpa [String.length] using hlen
        exact strDataEq (List.append_inj_left heqd hdl)
  · intro c p h
    unfold _create_input_filename
    simp [h]

/-- C7 witness: counters `01` and `02` with one fixed path give different
names, and a path that collapses to 42 characters is truncated to its
first and last 18 collapsed characters around `___`. -/
theorem _create_input_filename_spec_witness :
    _create_input_filename "01" "/home/user/data.txt" ≠
      _create_input_filename "02" "/home/user/data.txt" ∧
    _create_input_filename "07" "aaaaaaaaaaaaaaaaaabbbbcccccccccccccccccccc" =
      ⟨"07".data ++ '_' ::
        ((pyCollapse "aaaaaaaaaaaaaaaaaabbbbcccccccccccccccccccc".data).take 18
          ++ ['_', '_', '_'] ++
          (pyCollapse "aaaaaaaaaaaaaaaaaabbbbcccccccccccccccccccc".data).drop
            ((pyCollapse "aaaaaaaaaaaaaaaaaabbbbcccccccccccccccccccc".data).length
              - 18))⟩ :=
  ⟨_create_input_filename_spec.1 "01" "02" "/home/user/data.txt" rfl
      (by decide),
   _create_input_filename_spec.2 "07" "aaaaaaaaaaaaaaaaaabbbbcccccccccccccccccccc"
      (by simp +decide [pyCollapse])⟩

/-- A string whose length is zero is the empty string. -/
theorem strLenZero {s : String} (h : ¬ 0 < s.length) : s = "" := by
  cases s with
  | mk d =>
    cases d with
    | nil => rfl
    | cons c cs => simp [String.length] at h

/-- The stdout branch of `update_job` never touches `remote_error`. -/
theorem remote_error_after_stdout (job : JobRec) (o : String) :
    (if 0 < o.length then { job with remote_output := o }
     else job).remote_error = job.remote_error := by
  split <;> rfl

/-- C4 counterexample: `update_job` does not only ever extend the stored
error text.  A job whose stored `remote_error` is `"abc"` polled while the
remote stderr file holds `"x"` ends up with `remote_error = "x"`, of which
the previous text is not a prefix: the function overwrites the stored text
with the whole new file content rather than appending. -/
theorem update_job_truncates :
    (update_job Option.none (some "x") ⟨"", "abc"⟩).1.remote_error = "x" ∧
    ¬ ("abc".data <+: "x".data) := by
  constructor
  · simp +decide [update_job, _read_remote_file, pySplitlines, splitlinesGo]
  · decide

/-- C4 (amended): provided the stored error text is a prefix of the
current remote stderr content (the append-only situation the poller is
built for; an absent or empty file also qualifies), `update_job` only ever
extends the stored `remote_error`; in every case it passes exactly the
lines beyond the previously stored line count to `job.debug` (so nothing
already recorded is reprocessed); and when the remote file content equals
the stored text exactly, the stored text is unchanged and no line is
processed at all. -/
theorem update_job_error_append (so se : Option String) (job : JobRec)
    (h : job.remote_error.data <+: (_read_remote_file se).data ∨
         _read_remote_file se = "") :
    job.remote_error.data <+: (update_job so se job).1.remote_error.data ∧
    (update_job so se job).2 =
      (pySplitlines (_read_remote_file se)).drop
        (pySplitlines job.remote_error).length ∧
    (_read_remote_file se = job.remote_error →
      (update_job so se job).1.remote_error = job.remote_error ∧
      (update_job so se job).2 = []) := by
  unfold update_job
  by_cases hlog : 0 < (_read_remote_file se).length
  · have hpre : job.remote_error.data <+: (_read_remote_file se).data := by
      rcases h with h | h
      · exact h
      · rw [h] at hlog
        simp [String.length] at hlog
    refine ⟨?_, ?_, ?_⟩
    · simpa [hlog, remote_error_after_stdout] using hpre
    · simp [hlog, remote_error_after_stdout]
    · intro hsame
      rw [hsame]
      simp only [remote_error_after_stdout, List.drop_length]
      split <;> simp [remote_error_after_stdout]
  · have hempty : _read_remote_file se = "" := strLenZero hlog
    refine ⟨?_, ?_, ?_⟩
    · simp [hlog, remote_error_after_stdout]
    · simp [hlog, hempty, pySplitlines, splitlinesGo]
    · intro hsame
      simp [hlog, remote_error_after_stdout]

/-- C4 witness: polling with stderr content `"abc\ndef"` over a stored
error `"abc"` keeps the stored text as a prefix and hands only `"def"` to
`job.debug`; polling again with unchanged content changes nothing. -/
theorem update_job_error_append_witness :
    ("abc".data <+:
      (update_job Option.none (some "abc\ndef") ⟨"", "abc"⟩).1.remote_error.data) ∧
    (update_job Option.none (some "abc\ndef") ⟨"", "abc"⟩).2 =
      (pySplitlines "abc\ndef").drop (pySplitlines "abc").length ∧
    ("abc\ndef" = "abc" →
      (update_job Option.none (some "abc\ndef") ⟨"", "abc"⟩).1.remote_error = "abc" ∧
      (update_job Option.none (some "abc\ndef") ⟨"", "abc"⟩).2 = []) :=
  update_job_error_append Option.none (some "abc\ndef") ⟨"", "abc"⟩
    (Or.inl (by decide))

/-- String append acts as list append on the character data. -/
theorem strData_append (a b : String) : (a ++ b).data = a.data ++ b.data :=
  rfl

/-- A string that starts with `pfx` is `pfx` followed by the rest after
`pfx.length` characters. -/
theorem startsWith_decomp {lc pfx : String}
    (h : pyStartsWith lc pfx = true) :
    lc = pfx ++ pyDrop lc pfx.length := by
  apply strDataEq
  rw [strData_append]
  have hp : pfx.data <+: lc.data := by
    simpa [pyStartsWith, List.isPrefixOf_iff_prefix] using h
  obtain ⟨t, ht⟩ := hp
  have hd : (pyDrop lc pfx.length).data = t := by
    show lc.data.drop pfx.data.length = t
    rw [← ht, List.drop_left]
  rw [hd, ht]

/-- The relation between a resolved output file and the entry
`destage_job_output` returns for it: name and secondary files are carried
over, the original location was exactly the `file://<workdir>/` prefix
followed by the returned (now relative) location, and `source` is the
absolute remote path. -/
def destagedAs (work_dir : String) (f : InputFile) (o : OutputFile) : Prop :=
  o.name = f.name ∧ o.secondary_files = f.secondary_files ∧
  f.location = PyVal.str ("file://" ++ work_dir ++ "/" ++ o.location) ∧
  o.source = work_dir ++ "/" ++ o.location

/-- A resolved output file whose location is a string inside the job's
work directory. -/
def goodLocation (work_dir : String) (f : InputFile) : Prop :=
  ∃ lc, f.location = PyVal.str lc ∧
    pyStartsWith lc ("file://" ++ work_dir ++ "/") = true

/-- `destageLoop` on files that all pass the location check returns them
all, each rewritten as `destagedAs` describes. -/
theorem destageLoop_ok (work_dir : String) :
    ∀ files : List InputFile, (∀ f ∈ files, goodLocation work_dir f) →
    ∃ outs, destageLoop work_dir files = .ok outs ∧
      List.Forall₂ (destagedAs work_dir) files outs := by
  intro files
  induction files with
  | nil => exact fun _ => ⟨[], rfl, List.Forall₂.nil⟩
  | cons f rest ih =>
    intro hall
    obtain ⟨lc, hloc, hsw⟩ := hall f (by simp)
    obtain ⟨outs, houts, hrel⟩ := ih (fun g hg => hall g (by simp [hg]))
    refine ⟨⟨f.name, pyDrop lc ("file://" ++ work_dir ++ "/").length,
      work_dir ++ "/" ++ pyDrop lc ("file://" ++ work_dir ++ "/").length,
      f.secondary_files⟩ :: outs, ?_, ?_⟩
    · simp [destageLoop, destageFile, hloc, hsw, houts, Bind.bind, Except.bind]
    · refine List.Forall₂.cons ⟨rfl, rfl, ?_, rfl⟩ hrel
      rw [hloc, ← startsWith_decomp hsw]

/-- `destageLoop` aborts with the unexpected-location exception at the
first file whose location fails the check, whatever follows it. -/
theorem destageLoop_err (work_dir : String) :
    ∀ (pre : List InputFile) (f : InputFile) (post : List InputFile)
      (lc : String),
    (∀ g ∈ pre, goodLocation work_dir g) →
    f.location = PyVal.str lc →
    pyStartsWith lc ("file://" ++ work_dir ++ "/") = false →
    destageLoop work_dir (pre ++ f :: post) = .error (.exception
      ("Unexpected output location in cwl-runner output: " ++ lc ++
       ", expected it to start with: " ++
       ("file://" ++ work_dir ++ "/"))) := by
  intro pre
  induction pre with
  | nil =>
    intro f post lc _ hloc hsw
    simp [destageLoop, destageFile, hloc, hsw, Bind.bind, Except.bind]
  | cons g pre' ih =>
    intro f post lc hall hloc hsw
    obtain ⟨lg, hlg, hswg⟩ := hall g (by simp)
    have := ih f post lc (fun g' hg' => hall g' (by simp [hg'])) hloc hsw
    simp [destageLoop, destageFile, hlg, hswg, this, Bind.bind, Except.bind]

/-- C3: for a job whose stored remote-output JSON is non-empty (parsed to
`outputs`), once the output binding resolves to `files`:
if some resolved file's location does not start with
`file://<workdir>/` then, provided the loop reaches it (every file before
it passes the check), `destage_job_output` raises the unexpected-location
exception — and, the success value of the embedding being the only list
returned, no partial list of the files processed before the bad one is
produced; if instead every resolved file passes the check, the whole list
is returned with every location rewritten to be relative to the work
directory (the original location is exactly the prefix plus the returned
relative location). -/
theorem destage_job_output_spec :
    (∀ (work_dir : String) (outputs : PyVal) (files : List InputFile),
      get_files_from_binding outputs = .ok files →
      (∀ f ∈ files, goodLocation work_dir f) →
      ∃ outs, destage_job_output work_dir (some outputs) = .ok outs ∧
        List.Forall₂ (destagedAs work_dir) files outs) ∧
    (∀ (work_dir : String) (outputs : PyVal) (pre : List InputFile)
       (f : InputFile) (post : List InputFile) (lc : String),
      get_files_from_binding outputs = .ok (pre ++ f :: post) →
      (∀ g ∈ pre, goodLocation work_dir g) →
      f.location = PyVal.str lc →
      pyStartsWith lc ("file://" ++ work_dir ++ "/") = false →
      destage_job_output work_dir (some outputs) = .error (.exception
        ("Unexpected output location in cwl-runner output: " ++ lc ++
         ", expected it to start with: " ++
         ("file://" ++ work_dir ++ "/")))) := by
  constructor
  · intro work_dir outputs files hres hall
    obtain ⟨outs, houts, hrel⟩ := destageLoop_ok work_dir files hall
    exact ⟨outs, by simp [destage_job_output, hres, houts, Bind.bind,
      Except.bind], hrel⟩
  · intro work_dir outputs pre f post lc hres hall hloc hsw
    have := destageLoop_err work_dir pre f post lc hall hloc hsw
    simp [destage_job_output, hres, this, Bind.bind, Except.bind]

/-- C3 witness: a two-output binding whose locations both sit inside the
work directory destages to relative locations, and the same binding with
one location outside the work directory raises the unexpected-location
exception. -/
theorem destage_job_output_spec_witness :
    (∃ outs, destage_job_output "/w"
        (some (.dict [("o1", .dict [("class", .str "File"),
                                    ("location", .str "file:///w/a.txt")]),
                      ("o2", .dict [("class", .str "File"),
                                    ("location", .str "file:///w/b.txt")])]))
        = .ok outs ∧
      List.Forall₂ (destagedAs "/w")
        [InputFile.mk (some "o1") (.str "file:///w/a.txt") Option.none [],
         InputFile.mk (some "o2") (.str "file:///w/b.txt") Option.none []]
        outs) ∧
    destage_job_output "/w"
        (some (.dict [("o1", .dict [("class", .str "File"),
                                    ("location", .str "file:///x/a.txt")])]))
      = .error (.exception
          ("Unexpected output location in cwl-runner output: " ++
           "file:///x/a.txt" ++ ", expected it to start with: " ++
           ("file://" ++ "/w" ++ "/"))) := by
  constructor
  · refine destage_job_output_spec.1 "/w" _
      [InputFile.mk (some "o1") (.str "file:///w/a.txt") Option.none [],
       InputFile.mk (some "o2") (.str "file:///w/b.txt") Option.none []]
      ?_ ?_
    · simp +decide [get_files_from_binding, gffbEntries, gffbValue, gffbList,
        gsfIter, get_secondary_files, pyGetD, pyGet, pyGetEqStr,
        Bind.bind, Except.bind]
    · intro f hf
      simp only [List.mem_cons, List.not_mem_nil, or_false] at hf
      rcases hf with hf | hf <;> subst hf
      · exact ⟨"file:///w/a.txt", rfl, by decide⟩
      · exact ⟨"file:///w/b.txt", rfl, by decide⟩
  · refine destage_job_output_spec.2 "/w" _
      [] (InputFile.mk (some "o1") (.str "file:///x/a.txt") Option.none []) []
      "file:///x/a.txt" ?_ (by simp) rfl (by decide)
    simp +decide [get_files_from_binding, gffbEntries, gffbValue, gffbList,
      gsfIter, get_secondary_files, pyGetD, pyGet, pyGetEqStr,
      Bind.bind, Except.bind]

/-- `pySplitGo` always yields at least one field. -/
theorem pySplitGo_ne_nil (sep : Char) :
    ∀ (cs acc : List Char), pySplitGo sep cs acc ≠ [] := by
  intro cs
  induction cs with
  | nil => intro acc; simp [pySplitGo]
  | cons c rest ih =>
    intro acc
    by_cases h : c = sep <;> simp [pySplitGo, h, ih]

/-- `joinSlash` on a list of at least two fields. -/
theorem joinSlash_cons (a : String) {l : List String} (h : l ≠ []) :
    joinSlash (a :: l) = a ++ "/" ++ joinSlash l := by
  cases l with
  | nil => exact absurd rfl h
  | cons b t => rfl

/-- Joining `pySplitGo`'s fields with `/` restores the input (with the
pending accumulator in front). -/
theorem joinSlash_pySplitGo :
    ∀ (cs acc : List Char),
      joinSlash (pySplitGo '/' cs acc) = ⟨acc.reverse ++ cs⟩ := by
  intro cs
  induction cs with
  | nil => intro acc; simp [pySplitGo, joinSlash]
  | cons c rest ih =>
    intro acc
    by_cases h : c = '/'
    · subst h
      rw [pySplitGo, if_pos rfl,
        joinSlash_cons _ (pySplitGo_ne_nil '/' rest []), ih []]
      apply strDataEq
      simp [strData_append]
    · rw [pySplitGo, if_neg h, ih (c :: acc)]
      apply strDataEq
      simp

/-- Python's `'/'.join(s.split('/')) == s`. -/
theorem joinSlash_pySplit (s : String) : joinSlash (pySplit s '/') = s := by
  rw [pySplit, joinSlash_pySplitGo]
  rfl

/-- One workflow step with a string `run` value `r` is rewritten to the
project's steps directory followed by the COMPLETE original reference
(`'/'.join` of all split segments, the project name included). -/
theorem translate_workflow_step_run (api n : String)
    (d : List (String × PyVal)) (r : String)
    (hrun : pyGet d "run" = some (.str r)) :
    translate_workflow_step api (n, .dict d) = .ok (n, .dict (dictSet d "run"
      (.str (api ++ "/" ++ (pySplit r '/').headD "" ++ "/steps/" ++ r)))) := by
  simp only [translate_workflow_step, hrun]
  rw [joinSlash_pySplit]
  have hsl : ∀ X : String, X ++ "/steps" ++ "/" ++ r = X ++ "/steps/" ++ r := by
    intro X
    apply strDataEq
    simp [strData_append]
  rw [hsl]

/-- C2 counterexample: a workflow with one step whose `run` is
`projA/tool1.cwl`, translated with api directory `/base/api`, gets the run
value `/base/api/projA/steps/projA/tool1.cwl` — the project segment is
repeated after `steps`, not dropped as the claim's
`/base/api/projA/steps/tool1.cwl` requires (the code joins ALL split
segments back on, not the segments after the project name). -/
theorem translate_workflow_keeps_project_segment :
    translate_workflow "/base/api"
      [("steps", .dict [("s1", .dict [("run", .str "projA/tool1.cwl")])])] =
      .ok [("steps", .dict [("s1", .dict [("run",
        .str "/base/api/projA/steps/projA/tool1.cwl")])])] ∧
    "/base/api/projA/steps/projA/tool1.cwl" ≠
      "/base/api/projA/steps/tool1.cwl" := by
  constructor
  · simp +decide [translate_workflow, translate_workflow_step, pyGet, dictSet,
      pySplit, pySplitGo, joinSlash, List.mapM, List.mapM.loop,
      Bind.bind, Except.bind, Pure.pure, Except.pure]
  · decide

/-- C2 (amended): for every workflow document with a `steps` mapping whose
steps are all dicts holding a string `run`, translation succeeds and
returns the document with each step's `run` rewritten to
`<api_dir>/<project>/steps/<the complete original run reference>`, where
`<project>` is the first `/`-separated segment of the original reference
(so the project name reappears after `steps`); everything else in the
document is passed through unchanged to the JSON serialisation. -/
theorem translate_workflow_amended (api : String)
    (wf : List (String × PyVal)) (steps : List (String × PyVal))
    (hsteps : pyGet wf "steps" = some (.dict steps))
    (hruns : ∀ nv ∈ steps, ∃ d r, nv.2 = PyVal.dict d ∧
      pyGet d "run" = some (.str r)) :
    ∃ steps', translate_workflow api wf = .ok (dictSet wf "steps"
        (.dict steps')) ∧
      List.Forall₂ (fun nv nv' => nv'.1 = nv.1 ∧
        ∀ d r, nv.2 = PyVal.dict d → pyGet d "run" = some (.str r) →
          nv'.2 = PyVal.dict (dictSet d "run"
            (.str (api ++ "/" ++ (pySplit r '/').headD "" ++ "/steps/" ++ r))))
        steps steps' := by
  have hmap : ∀ ss : List (String × PyVal),
      (∀ nv ∈ ss, ∃ d r, nv.2 = PyVal.dict d ∧
        pyGet d "run" = some (.str r)) →
      ∃ ss', ss.mapM (translate_workflow_step api) = .ok ss' ∧
        List.Forall₂ (fun nv nv' => nv'.1 = nv.1 ∧
          ∀ d r, nv.2 = PyVal.dict d → pyGet d "run" = some (.str r) →
            nv'.2 = PyVal.dict (dictSet d "run"
              (.str (api ++ "/" ++ (pySplit r '/').headD "" ++ "/steps/" ++
                r)))) ss ss' := by
    intro ss
    induction ss with
    | nil => exact fun _ => ⟨[], rfl, List.Forall₂.nil⟩
    | cons nv rest ih =>
      intro hall
      obtain ⟨d, r, hd, hr⟩ := hall nv (by simp)
      obtain ⟨rest', hrest, hrel⟩ := ih (fun x hx => hall x (by simp [hx]))
      obtain ⟨n, v⟩ := nv
      cases hd
      refine ⟨(n, PyVal.dict (dictSet d "run"
        (.str (api ++ "/" ++ (pySplit r '/').headD "" ++ "/steps/" ++ r))))
        :: rest', ?_, ?_⟩
      · rw [List.mapM_cons, translate_workflow_step_run api n d r hr, hrest]
        rfl
      · refine List.Forall₂.cons ⟨rfl, ?_⟩ hrel
        intro d' r' hd' hr'
        cases hd'
        rw [hr] at hr'
        cases hr'
        rfl
  obtain ⟨steps', hok, hrel⟩ := hmap steps hruns
  refine ⟨steps', ?_, hrel⟩
  simp only [translate_workflow, hsteps]
  rw [hok]
  rfl

/-- C2 witness: the two-step workflow from the spec's end-to-end test,
with `run` values `projA/tool1.cwl` and `projA/tool2.cwl`. -/
theorem translate_workflow_amended_witness :
    ∃ steps', translate_workflow "/base/api"
        [("cwlVersion", .str "v1.0"),
         ("steps", .dict
           [("s1", .dict [("run", .str "projA/tool1.cwl")]),
            ("s2", .dict [("run", .str "projA/tool2.cwl")])])] =
      .ok (dictSet
        [("cwlVersion", .str "v1.0"),
         ("steps", .dict
           [("s1", .dict [("run", .str "projA/tool1.cwl")]),
            ("s2", .dict [("run", .str "projA/tool2.cwl")])])]
        "steps" (.dict steps')) ∧
      List.Forall₂ (fun nv nv' => nv'.1 = nv.1 ∧
        ∀ d r, nv.2 = PyVal.dict d → pyGet d "run" = some (.str r) →
          nv'.2 = PyVal.dict (dictSet d "run"
            (.str ("/base/api" ++ "/" ++ (pySplit r '/').headD "" ++
              "/steps/" ++ r))))
        [("s1", .dict [("run", .str "projA/tool1.cwl")]),
         ("s2", .dict [("run", .str "projA/tool2.cwl")])] steps' := by
  refine translate_workflow_amended "/base/api" _ _ (by simp [pyGet]) ?_
  intro nv hnv
  simp only [List.mem_cons, List.not_mem_nil, or_false] at hnv
  rcases hnv with h | h <;> subst h
  · exact ⟨[("run", .str "projA/tool1.cwl")], "projA/tool1.cwl", rfl,
      by simp [pyGet]⟩
  · exact ⟨[("run", .str "projA/tool2.cwl")], "projA/tool2.cwl", rfl,
      by simp [pyGet]⟩

/-- Any list is a Boolean prefix of itself followed by anything. -/
theorem isPrefixOf_append_self : ∀ (l t : List Char),
    l.isPrefixOf (l ++ t) = true := by
  intro l
  induction l with
  | nil => intro t; simp [List.isPrefixOf]
  | cons c rest ih => intro t; simp [List.isPrefixOf, ih]

/-- The replace scan walks over characters that cannot start a match. -/
theorem pyReplaceGo_skip (p : Char) (ps rep : List Char) :
    ∀ (xs rest : List Char), (∀ c ∈ xs, c ≠ p) →
    pyReplaceGo p ps rep (xs ++ rest) = xs ++ pyReplaceGo p ps rep rest := by
  intro xs
  induction xs with
  | nil => intro rest _; rfl
  | cons c xs' ih =>
    intro rest hne
    have hcp : (p == c) = false :=
      beq_eq_false_iff_ne.mpr (fun h => hne c (by simp) h.symm)
    rw [List.cons_append]
    simp only [pyReplaceGo, List.isPrefixOf, hcp, Bool.false_and]
    rw [ih rest (fun d hd => hne d (by simp [hd]))]
    simp

/-- The replace scan substitutes at a match and resumes after it. -/
theorem pyReplaceGo_match (p : Char) (ps rep rest : List Char) :
    pyReplaceGo p ps rep (p :: (ps ++ rest)) =
      rep ++ pyReplaceGo p ps rep rest := by
  have hpre : (p :: ps).isPrefixOf (p :: (ps ++ rest)) = true := by
    rw [← List.cons_append]
    exact isPrefixOf_append_self (p :: ps) rest
  simp only [pyReplaceGo, hpre, List.drop_left]
  simp

/-- The replace scan leaves a match-free tail unchanged. -/
theorem pyReplaceGo_noOcc (p : Char) (ps rep : List Char)
    (xs : List Char) (h : ∀ c ∈ xs, c ≠ p) :
    pyReplaceGo p ps rep xs = xs := by
  have := pyReplaceGo_skip p ps rep xs [] h
  simpa [pyReplaceGo] using this

/-- `s.replace(pat, rep)` replaces BOTH occurrences in
`x + pat + y + pat + z` when the fragments `x`, `y`, `z` do not contain
the pattern's first character. -/
theorem pyReplace_double (pat rep x y z : String) (p : Char)
    (ptail : List Char) (hpat : pat.data = p :: ptail)
    (hx : ∀ c ∈ x.data, c ≠ p) (hy : ∀ c ∈ y.data, c ≠ p)
    (hz : ∀ c ∈ z.data, c ≠ p) :
    pyReplace (x ++ pat ++ y ++ pat ++ z) pat rep =
      x ++ rep ++ y ++ rep ++ z := by
  apply strDataEq
  simp only [pyReplace, hpat]
  show pyReplaceGo p ptail rep.data (x ++ pat ++ y ++ pat ++ z).data =
    (x ++ rep ++ y ++ rep ++ z).data
  simp only [strData_append, hpat, List.append_assoc, List.cons_append]
  rw [pyReplaceGo_skip p ptail rep.data x.data _ hx]
  rw [pyReplaceGo_match]
  rw [pyReplaceGo_skip p ptail rep.data y.data _ hy]
  rw [pyReplaceGo_match]
  rw [pyReplaceGo_noOcc p ptail rep.data z.data hz]

/-- `s.replace(pat, rep, 1)` on a string that starts with `pat` replaces
exactly that first occurrence and keeps the remainder verbatim. -/
theorem pyReplace1_head (pat rep s : String) (p : Char) (ptail : List Char)
    (hpat : pat.data = p :: ptail) :
    pyReplace1 (pat ++ s) pat rep = rep ++ s := by
  apply strDataEq
  simp only [pyReplace1, hpat]
  show pyReplace1Go p ptail rep.data (pat ++ s).data = (rep ++ s).data
  simp only [strData_append, hpat, List.cons_append]
  have hpre : (p :: ptail).isPrefixOf (p :: (ptail ++ s.data)) = true := by
    rw [← List.cons_append]
    exact isPrefixOf_append_self (p :: ptail) s.data
  simp only [pyReplace1Go, hpre, List.drop_left]
  simp

/-- The replace scan copies a character at which no match starts. -/
theorem pyReplaceGo_step_nomatch (p : Char) (ps rep : List Char)
    (c : Char) (rest : List Char)
    (h : (p :: ps).isPrefixOf (c :: rest) = false) :
    pyReplaceGo p ps rep (c :: rest) = c :: pyReplaceGo p ps rep rest := by
  simp only [pyReplaceGo, h]
  simp

/-- The `$CERISE_API` pass of `translate_runner_location` walks straight
over `$CERISE_USERNAME` tokens: `$CERISE_API` is not a prefix of
`$CERISE_USERNAME` (they differ at the character after `$CERISE_`), so a
location built from `$`-free fragments around two `$CERISE_USERNAME`
tokens is left unchanged by `replace('$CERISE_API', ...)`. -/
theorem pyReplace_api_skips_username (api x y z : String)
    (hx : ∀ c ∈ x.data, c ≠ '$') (hy : ∀ c ∈ y.data, c ≠ '$')
    (hz : ∀ c ∈ z.data, c ≠ '$') :
    pyReplace (x ++ "$CERISE_USERNAME" ++ y ++ "$CERISE_USERNAME" ++ z)
      "$CERISE_API" api =
      x ++ "$CERISE_USERNAME" ++ y ++ "$CERISE_USERNAME" ++ z := by
  have hnm : ∀ rest : List Char,
      ('$' :: "CERISE_API".data).isPrefixOf
        ('$' :: ("CERISE_USERNAME".data ++ rest)) = false := by
    intro rest
    rw [show "CERISE_API".data =
          ['C', 'E', 'R', 'I', 'S', 'E', '_', 'A', 'P', 'I'] from rfl,
        show "CERISE_USERNAME".data =
          ['C', 'E', 'R', 'I', 'S', 'E', '_', 'U', 'S', 'E', 'R', 'N', 'A',
           'M', 'E'] from rfl]
    simp +decide [List.isPrefixOf]
  have htail : ∀ c ∈ "CERISE_USERNAME".data, c ≠ '$' := by decide
  apply strDataEq
  show pyReplaceGo '$' "CERISE_API".data api.data
      (x ++ "$CERISE_USERNAME" ++ y ++ "$CERISE_USERNAME" ++ z).data =
    (x ++ "$CERISE_USERNAME" ++ y ++ "$CERISE_USERNAME" ++ z).data
  rw [strData_append, strData_append, strData_append, strData_append]
  rw [show ("$CERISE_USERNAME" : String).data =
    '$' :: "CERISE_USERNAME".data from rfl]
  revert hnm htail
  generalize "CERISE_USERNAME".data = T
  generalize "CERISE_API".data = PS
  intro hnm htail
  simp only [List.append_assoc, List.cons_append]
  rw [pyReplaceGo_skip '$' PS api.data x.data _ hx]
  rw [pyReplaceGo_step_nomatch '$' PS api.data '$' _ (hnm _)]
  rw [pyReplaceGo_skip '$' PS api.data T _ htail]
  rw [pyReplaceGo_skip '$' PS api.data y.data _ hy]
  rw [pyReplaceGo_step_nomatch '$' PS api.data '$' _ (hnm _)]
  rw [pyReplaceGo_skip '$' PS api.data T _ htail]
  rw [pyReplaceGo_noOcc '$' PS api.data z.data hz]

/-- C8 counterexample: `translate_runner_location` performs plain
`str.replace`, which substitutes EVERY occurrence: a runner location with
two `$CERISE_API` tokens has both replaced, whereas the claim requires
only the first to be replaced. -/
theorem translate_runner_location_replaces_all :
    translate_runner_location "/base/api" Option.none
      "$CERISE_API:$CERISE_API" = "/base/api:/base/api" ∧
    ("/base/api:/base/api" : String) ≠ "/base/api:$CERISE_API" := by
  constructor
  · simp [translate_runner_location, pyReplace, pyReplaceGo]
  · decide

/-- C8 (amended): `$CERISE_API` is substituted at EVERY occurrence by
`translate_runner_location`, left to right, as plain string replacement;
with a non-empty remote user name configured, `$CERISE_USERNAME` is
likewise substituted at EVERY occurrence (in the text left by the
`$CERISE_API` pass, which walks straight over `$CERISE_USERNAME` tokens);
in an API step, `$CERISE_API_FILES` is replaced exactly once (the first
occurrence only) in a `baseCommand` that starts with the macro — the rest
of the command, later occurrences included, is kept verbatim — and at
EVERY occurrence in each element of an `arguments` array.  The fragments
around the occurrences are macro-free (no `$`). -/
theorem macro_substitution_amended :
    (∀ (api_dir x y z : String),
      (∀ c ∈ x.data, c ≠ '$') → (∀ c ∈ y.data, c ≠ '$') →
      (∀ c ∈ z.data, c ≠ '$') →
      translate_runner_location api_dir Option.none
        (x ++ "$CERISE_API" ++ y ++ "$CERISE_API" ++ z) =
        x ++ api_dir ++ y ++ api_dir ++ z) ∧
    (∀ (api_dir u x y z : String), u.length ≠ 0 →
      (∀ c ∈ x.data, c ≠ '$') → (∀ c ∈ y.data, c ≠ '$') →
      (∀ c ∈ z.data, c ≠ '$') →
      translate_runner_location api_dir (some u)
        (x ++ "$CERISE_USERNAME" ++ y ++ "$CERISE_USERNAME" ++ z) =
        x ++ u ++ y ++ u ++ z) ∧
    (∀ (files_dir s x y z : String),
      (∀ c ∈ x.data, c ≠ '$') → (∀ c ∈ y.data, c ≠ '$') →
      (∀ c ∈ z.data, c ≠ '$') →
      _translate_api_step files_dir
        [("class", .str "CommandLineTool"),
         ("baseCommand", .str ("$CERISE_API_FILES" ++ s)),
         ("arguments", .list [.str
           (x ++ "$CERISE_API_FILES" ++ y ++ "$CERISE_API_FILES" ++ z)])] =
      .ok [("class", .str "CommandLineTool"),
           ("baseCommand", .str (files_dir ++ s)),
           ("arguments", .list [.str
             (x ++ files_dir ++ y ++ files_dir ++ z)])]) := by
  refine ⟨?_, ?_, ?_⟩
  · intro api_dir x y z hx hy hz
    show pyReplace (x ++ "$CERISE_API" ++ y ++ "$CERISE_API" ++ z)
      "$CERISE_API" api_dir = x ++ api_dir ++ y ++ api_dir ++ z
    exact pyReplace_double "$CERISE_API" api_dir x y z '$'
      "CERISE_API".data rfl hx hy hz
  · intro api_dir u x y z hu hx hy hz
    show (if u.length ≠ 0 then
        pyReplace (pyReplace
          (x ++ "$CERISE_USERNAME" ++ y ++ "$CERISE_USERNAME" ++ z)
          "$CERISE_API" api_dir) "$CERISE_USERNAME" u
      else pyReplace
        (x ++ "$CERISE_USERNAME" ++ y ++ "$CERISE_USERNAME" ++ z)
        "$CERISE_API" api_dir) = x ++ u ++ y ++ u ++ z
    rw [if_pos hu, pyReplace_api_skips_username api_dir x y z hx hy hz]
    exact pyReplace_double "$CERISE_USERNAME" u x y z '$'
      "CERISE_USERNAME".data rfl hx hy hz
  · intro files_dir s x y z hx hy hz
    have hl : pyLstrip ("$CERISE_API_FILES" ++ s) =
        "$CERISE_API_FILES" ++ s := by
      apply strDataEq
      show (("$CERISE_API_FILES" ++ s).data).dropWhile pyIsSpace = _
      rw [strData_append,
        show "$CERISE_API_FILES".data = '$' :: "CERISE_API_FILES".data
          from rfl,
        List.cons_append, List.dropWhile_cons]
      simp [pyIsSpace]
    have hsw : pyStartsWith ("$CERISE_API_FILES" ++ s)
        "$CERISE_API_FILES" = true := by
      show ("$CERISE_API_FILES".data).isPrefixOf
        (("$CERISE_API_FILES" ++ s).data) = true
      rw [strData_append]
      exact isPrefixOf_append_self _ _
    have hbc := pyReplace1_head "$CERISE_API_FILES" files_dir s '$'
      "CERISE_API_FILES".data rfl
    have harg := pyReplace_double "$CERISE_API_FILES" files_dir x y z '$'
      "CERISE_API_FILES".data rfl hx hy hz
    simp +decide [_translate_api_step, pyGetEqStr, pyGet, dictSet, hl, hsw,
      hbc, harg, List.mapM.loop, Bind.bind, Except.bind,
      Pure.pure, Except.pure]

/-- C8 witness: `a$CERISE_APIb$CERISE_APIc` has both tokens replaced by
the runner-location translation; with remote user name `bob`,
`a$CERISE_USERNAMEb$CERISE_USERNAMEc` has both username tokens replaced;
a step whose `baseCommand` is `$CERISE_API_FILES/bin/x $CERISE_API_FILES`
keeps its second token, while its argument
`p$CERISE_API_FILESq$CERISE_API_FILESr` has both replaced. -/
theorem macro_substitution_amended_witness :
    translate_runner_location "/api" Option.none
      ("a" ++ "$CERISE_API" ++ "b" ++ "$CERISE_API" ++ "c") =
      "a" ++ "/api" ++ "b" ++ "/api" ++ "c" ∧
    translate_runner_location "/api" (some "bob")
      ("a" ++ "$CERISE_USERNAME" ++ "b" ++ "$CERISE_USERNAME" ++ "c") =
      "a" ++ "bob" ++ "b" ++ "bob" ++ "c" ∧
    _translate_api_step "/files"
      [("class", .str "CommandLineTool"),
       ("baseCommand", .str ("$CERISE_API_FILES" ++ "/bin/x $CERISE_API_FILES")),
       ("arguments", .list [.str
         ("p" ++ "$CERISE_API_FILES" ++ "q" ++ "$CERISE_API_FILES" ++ "r")])] =
    .ok [("class", .str "CommandLineTool"),
         ("baseCommand", .str ("/files" ++ "/bin/x $CERISE_API_FILES")),
         ("arguments", .list [.str
           ("p" ++ "/files" ++ "q" ++ "/files" ++ "r")])] :=
  ⟨macro_substitution_amended.1 "/api" "a" "b" "c" (by decide) (by decide)
      (by decide),
   macro_substitution_amended.2.1 "/api" "bob" "a" "b" "c" (by decide)
      (by decide) (by decide) (by decide),
   macro_substitution_amended.2.2 "/files" "/bin/x $CERISE_API_FILES" "p" "q"
      "r" (by decide) (by decide) (by decide)⟩

mutual

/-- A Directory-class dict occurs somewhere in a `secondaryFiles` list
along the paths `get_secondary_files` traverses: as an element, or inside
the list-valued `secondaryFiles` of a File-class element. -/
def dirOccursL (l : List PyVal) : Bool :=
  match l with
  | [] => false
  | v :: vs => dirOccursV v || dirOccursL vs
termination_by sizeOf l

/-- A Directory-class dict at (or reachable from) one entry. -/
def dirOccursV (v : PyVal) : Bool :=
  match v with
  | .dict d =>
    pyGetEqStr d "class" "Directory" ||
    (pyGetEqStr d "class" "File" &&
      match hsv : pyGet d "secondaryFiles" with
      | some (.list l) => dirOccursL l
      | _ => false)
  | _ => false
termination_by sizeOf v
decreasing_by
  simp only [PyVal.dict.sizeOf_spec]
  have := pyGet_sizeOf_lt hsv
  simp only [PyVal.list.sizeOf_spec] at this
  omega

end

/-- A key bound to one string is not bound to a different one. -/
theorem pyGetEqStr_unique {d : List (String × PyVal)} {k a b : String}
    (ha : pyGetEqStr d k a = true) (hab : a ≠ b) :
    pyGetEqStr d k b = false := by
  cases hv : pyGet d k with
  | none => simp [pyGetEqStr, hv] at ha
  | some v =>
    cases v with
    | str t =>
      simp only [pyGetEqStr, hv, decide_eq_true_eq] at ha
      subst ha
      simp only [pyGetEqStr, hv]
      simpa using hab
    | none => simp [pyGetEqStr, hv] at ha
    | bool b => simp [pyGetEqStr, hv] at ha
    | int n => simp [pyGetEqStr, hv] at ha
    | list xs => simp [pyGetEqStr, hv] at ha
    | dict dd => simp [pyGetEqStr, hv] at ha

/-- A non-dict entry is silently skipped by `get_secondary_files`. -/
theorem gsf_skips_nondict (v : PyVal) (rest : List PyVal)
    (h : ∀ d, v ≠ PyVal.dict d) :
    get_secondary_files (v :: rest) = get_secondary_files rest := by
  have he : gsfEntry v = .ok [] := by
    cases v with
    | dict d => exact absurd rfl (h d)
    | none => simp [gsfEntry]
    | bool b => simp [gsfEntry]
    | int n => simp [gsfEntry]
    | str s => simp [gsfEntry]
    | list l => simp [gsfEntry]
  rcases hr : get_secondary_files rest with e | t <;>
    simp [get_secondary_files, he, hr, Bind.bind, Except.bind]

/-- A dict entry that is neither File-class nor Directory-class raises
the invalid-entry RuntimeError, whatever precedes or follows it (entries
before it may raise their own error first, but the result is never a
success). -/
theorem gsf_invalid_dict_error :
    ∀ (pre : List PyVal) (d : List (String × PyVal)) (post : List PyVal),
    pyGetEqStr d "class" "File" = false →
    pyGetEqStr d "class" "Directory" = false →
    ∃ e, get_secondary_files (pre ++ PyVal.dict d :: post) = .error e := by
  intro pre
  induction pre with
  | nil =>
    intro d post hF hD
    refine ⟨.runtimeError
      "Invalid secondaryFiles entry: must be a File or a Directory", ?_⟩
    simp [get_secondary_files, gsfEntry, hF, hD, Bind.bind, Except.bind]
  | cons v pre' ih =>
    intro d post hF hD
    obtain ⟨e, he⟩ := ih d post hF hD
    rcases hv : gsfEntry v with e' | h
    · exact ⟨e', by simp [get_secondary_files, hv, Bind.bind, Except.bind]⟩
    · exact ⟨e, by simp [get_secondary_files, hv, he, Bind.bind,
        Except.bind]⟩

/-- Unfolding `get_secondary_files` on a cons cell: both results known. -/
theorem gsf_cons_ok {v : PyVal} {vs : List PyVal} {h t : List InputFile}
    (hv : gsfEntry v = .ok h) (ht : get_secondary_files vs = .ok t) :
    get_secondary_files (v :: vs) = .ok (h ++ t) := by
  simp [get_secondary_files, hv, ht, Bind.bind, Except.bind]

/-- Unfolding `get_secondary_files` on a cons cell: the entry raises. -/
theorem gsf_cons_err1 {v : PyVal} {vs : List PyVal} {e : PyErr}
    (hv : gsfEntry v = .error e) :
    get_secondary_files (v :: vs) = .error e := by
  simp [get_secondary_files, hv, Bind.bind, Except.bind]

/-- Unfolding `get_secondary_files` on a cons cell: the tail raises. -/
theorem gsf_cons_err2 {v : PyVal} {vs : List PyVal} {h : List InputFile}
    {e : PyErr} (hv : gsfEntry v = .ok h)
    (ht : get_secondary_files vs = .error e) :
    get_secondary_files (v :: vs) = .error e := by
  simp [get_secondary_files, hv, ht, Bind.bind, Except.bind]

/-- `gsfEntry` on a File-class dict without a `secondaryFiles` key. -/
theorem gsfEntry_file_none {d : List (String × PyVal)} {loc : PyVal}
    (hF : pyGetEqStr d "class" "File" = true)
    (hloc : pyGet d "location" = some loc)
    (hsv : pyGet d "secondaryFiles" = Option.none) :
    gsfEntry (PyVal.dict d) = .ok [InputFile.mk Option.none loc Option.none []] := by
  simp only [gsfEntry, hF, hloc, if_pos]
  split
  · rfl
  · rename_i sv heq
    rw [hsv] at heq
    cases heq

/-- `gsfEntry` on a File-class dict whose `secondaryFiles` list resolves. -/
theorem gsfEntry_file_some {d : List (String × PyVal)} {loc : PyVal}
    {sl : List PyVal} {sf : List InputFile}
    (hF : pyGetEqStr d "class" "File" = true)
    (hloc : pyGet d "location" = some loc)
    (hsv : pyGet d "secondaryFiles" = some (PyVal.list sl))
    (hsl : get_secondary_files sl = .ok sf) :
    gsfEntry (PyVal.dict d) = .ok [InputFile.mk Option.none loc Option.none sf] := by
  simp only [gsfEntry, hF, hloc, if_pos]
  split
  · rename_i heq
    rw [hsv] at heq
    cases heq
  · rename_i sv heq
    rw [hsv] at heq
    injection heq with h
    subst h
    simp [gsfIter, hsl, Bind.bind, Except.bind]

/-- `gsfEntry` on a File-class dict whose `secondaryFiles` list raises. -/
theorem gsfEntry_file_err {d : List (String × PyVal)} {loc : PyVal}
    {sl : List PyVal} {e : PyErr}
    (hF : pyGetEqStr d "class" "File" = true)
    (hloc : pyGet d "location" = some loc)
    (hsv : pyGet d "secondaryFiles" = some (PyVal.list sl))
    (hsl : get_secondary_files sl = .error e) :
    gsfEntry (PyVal.dict d) = .error e := by
  simp only [gsfEntry, hF, hloc, if_pos]
  split
  · rename_i heq
    rw [hsv] at heq
    cases heq
  · rename_i sv heq
    rw [hsv] at heq
    injection heq with h
    subst h
    simp [gsfIter, hsl, Bind.bind, Except.bind]

/-- A File-class entry becomes an `InputFile` with no name, the
`location` value taken verbatim, and its own `secondaryFiles` (when the
key is present and a list) resolved recursively. -/
theorem gsf_file_entry (d : List (String × PyVal)) (rest : List PyVal)
    (loc : PyVal) (rf : List InputFile)
    (hF : pyGetEqStr d "class" "File" = true)
    (hloc : pyGet d "location" = some loc)
    (hrest : get_secondary_files rest = .ok rf) :
    (pyGet d "secondaryFiles" = Option.none →
      get_secondary_files (PyVal.dict d :: rest) =
        .ok (InputFile.mk Option.none loc Option.none [] :: rf)) ∧
    (∀ sl sf, pyGet d "secondaryFiles" = some (PyVal.list sl) →
      get_secondary_files sl = .ok sf →
      get_secondary_files (PyVal.dict d :: rest) =
        .ok (InputFile.mk Option.none loc Option.none sf :: rf)) := by
  constructor
  · intro hsv
    simpa using gsf_cons_ok (gsfEntry_file_none hF hloc hsv) hrest
  · intro sl sf hsv hsl
    simpa using gsf_cons_ok (gsfEntry_file_some hF hloc hsv hsl) hrest

/-- `gsfEntry` on a Directory-class dict raises the unsupported error. -/
theorem gsfEntry_directory {d : List (String × PyVal)}
    (hD : pyGetEqStr d "class" "Directory" = true) :
    gsfEntry (PyVal.dict d) =
      .error (.runtimeError "Directory inputs are not yet supported, sorry") := by
  have hF : pyGetEqStr d "class" "File" = false :=
    pyGetEqStr_unique hD (by decide)
  simp [gsfEntry, hF, hD]

/-- `gsfEntry` on a File-class dict without a `location` key raises
KeyError. -/
theorem gsfEntry_file_noloc {d : List (String × PyVal)}
    (hF : pyGetEqStr d "class" "File" = true)
    (hloc : pyGet d "location" = Option.none) :
    gsfEntry (PyVal.dict d) = .error (.keyError "location") := by
  simp [gsfEntry, hF, hloc]

/-- Every `PyVal` has positive size. -/
theorem pyVal_sizeOf_pos (v : PyVal) : 0 < sizeOf v := by
  cases v <;> simp

/-- A Directory-class entry reachable anywhere along the recursive
traversal makes `get_secondary_files` raise: the result is never a
success (the error reported may be one raised even earlier in the
iteration, but nothing is silently dropped). -/
theorem gsf_error_of_dirOccurs :
    ∀ l : List PyVal, dirOccursL l = true →
    ∃ e, get_secondary_files l = .error e := by
  have key : ∀ n : Nat, ∀ l : List PyVal, sizeOf l ≤ n →
      dirOccursL l = true → ∃ e, get_secondary_files l = .error e := by
    intro n
    induction n with
    | zero =>
      intro l hsz _
      exfalso
      cases l <;> simp at hsz
    | succ n ih =>
      intro l hsz hocc
      cases l with
      | nil => simp [dirOccursL] at hocc
      | cons v vs =>
        have hszvs : sizeOf vs ≤ n := by
          have := pyVal_sizeOf_pos v
          simp only [List.cons.sizeOf_spec] at hsz
          omega
        simp only [dirOccursL, Bool.or_eq_true] at hocc
        rcases hocc with hv | hvs
        · cases v with
          | dict d =>
            simp only [dirOccursV, Bool.or_eq_true, Bool.and_eq_true] at hv
            rcases hv with hD | ⟨hF, hm⟩
            · exact ⟨_, gsf_cons_err1 (gsfEntry_directory hD)⟩
            · split at hm
              · rename_i sl heq
                rcases hloc : pyGet d "location" with _ | loc
                · exact ⟨_, gsf_cons_err1 (gsfEntry_file_noloc hF hloc)⟩
                · have hsl : sizeOf sl ≤ n := by
                    have h1 := pyGet_sizeOf_lt heq
                    simp only [PyVal.list.sizeOf_spec] at h1
                    simp only [List.cons.sizeOf_spec,
                      PyVal.dict.sizeOf_spec] at hsz
                    omega
                  obtain ⟨e, he⟩ := ih sl hsl hm
                  exact ⟨e, gsf_cons_err1 (gsfEntry_file_err hF hloc heq he)⟩
              · cases hm
          | none => simp [dirOccursV] at hv
          | bool b => simp [dirOccursV] at hv
          | int k => simp [dirOccursV] at hv
          | str t => simp [dirOccursV] at hv
          | list xs => simp [dirOccursV] at hv
        · obtain ⟨e, he⟩ := ih vs hszvs hvs
          rcases hv : gsfEntry v with e' | h
          · exact ⟨e', gsf_cons_err1 hv⟩
          · exact ⟨e, gsf_cons_err2 hv he⟩
  exact fun l h => key (sizeOf l) l (le_refl _) h

/-- C6 counterexample: an entry that is neither a File-class nor a
Directory-class OBJECT — here a plain string — is silently dropped by
`get_secondary_files` (the `isinstance(value, dict)` guard has no `else`),
not rejected with a validation error as the claim requires. -/
theorem get_secondary_files_drops_nondict :
    get_secondary_files [PyVal.str "not a file object"] = .ok [] := by
  simp [get_secondary_files, gsfEntry, Bind.bind, Except.bind]

/-- C6 (amended): `get_secondary_files` raises on every Directory-class
dict reachable anywhere in the recursive list (never a success, nothing
silently dropped); a DICT entry that is neither File-class nor
Directory-class raises the validation error (the result is never a
success); a NON-dict entry, however, is silently skipped; and a
File-class entry becomes an `InputFile` with no name, the location value
taken verbatim, and its own `secondaryFiles` resolved recursively. -/
theorem get_secondary_files_spec :
    (∀ l : List PyVal, dirOccursL l = true →
      ∃ e, get_secondary_files l = .error e) ∧
    (∀ (pre : List PyVal) (d : List (String × PyVal)) (post : List PyVal),
      pyGetEqStr d "class" "File" = false →
      pyGetEqStr d "class" "Directory" = false →
      ∃ e, get_secondary_files (pre ++ PyVal.dict d :: post) = .error e) ∧
    (∀ (v : PyVal) (rest : List PyVal), (∀ d, v ≠ PyVal.dict d) →
      get_secondary_files (v :: rest) = get_secondary_files rest) ∧
    (∀ (d : List (String × PyVal)) (rest : List PyVal) (loc : PyVal)
       (rf : List InputFile),
      pyGetEqStr d "class" "File" = true →
      pyGet d "location" = some loc →
      get_secondary_files rest = .ok rf →
      (pyGet d "secondaryFiles" = Option.none →
        get_secondary_files (PyVal.dict d :: rest) =
          .ok (InputFile.mk Option.none loc Option.none [] :: rf)) ∧
      (∀ sl sf, pyGet d "secondaryFiles" = some (PyVal.list sl) →
        get_secondary_files sl = .ok sf →
        get_secondary_files (PyVal.dict d :: rest) =
          .ok (InputFile.mk Option.none loc Option.none sf :: rf))) :=
  ⟨gsf_error_of_dirOccurs, gsf_invalid_dict_error, gsf_skips_nondict,
   gsf_file_entry⟩

/-- C6 witness: a Directory entry nested inside a File's secondaryFiles
raises; a dict of an unknown class raises; a plain-string entry is
skipped; a File entry with a recursive secondary file resolves to nested
InputFile nodes. -/
theorem get_secondary_files_spec_witness :
    (∃ e, get_secondary_files
      [PyVal.dict [("class", .str "File"), ("location", .str "f"),
        ("secondaryFiles", .list [PyVal.dict [("class", .str "Directory")]])]]
      = .error e) ∧
    (∃ e, get_secondary_files
      [PyVal.dict [("class", .str "Workflow")]] = .error e) ∧
    (get_secondary_files [PyVal.str "x", PyVal.int 3] =
      get_secondary_files [PyVal.int 3]) ∧
    (get_secondary_files
      [PyVal.dict [("class", .str "File"), ("location", .str "f"),
        ("secondaryFiles", .list
          [PyVal.dict [("class", .str "File"), ("location", .str "g")]])]]
      = .ok [InputFile.mk Option.none (.str "f") Option.none
          [InputFile.mk Option.none (.str "g") Option.none []]]) := by
  refine ⟨?_, ?_, ?_, ?_⟩
  · exact get_secondary_files_spec.1 _
      (by simp [dirOccursL, dirOccursV, pyGetEqStr, pyGet])
  · exact get_secondary_files_spec.2.1 [] [("class", .str "Workflow")] []
      (by decide) (by decide)
  · exact get_secondary_files_spec.2.2.1 (PyVal.str "x") [PyVal.int 3]
      (fun d h => PyVal.noConfusion h)
  · have hg : get_secondary_files
        [PyVal.dict [("class", .str "File"), ("location", .str "g")]] =
        .ok [InputFile.mk Option.none (.str "g") Option.none []] := by
      have h1 : gsfEntry (PyVal.dict [("class", PyVal.str "File"),
          ("location", PyVal.str "g")]) =
          .ok [InputFile.mk Option.none (.str "g") Option.none []] :=
        gsfEntry_file_none (by decide) rfl rfl
      simpa using gsf_cons_ok h1 (by simp [get_secondary_files])
    exact (get_secondary_files_spec.2.2.2
      [("class", .str "File"), ("location", .str "f"),
        ("secondaryFiles", .list
          [PyVal.dict [("class", .str "File"), ("location", .str "g")]])]
      [] (.str "f") [] (by decide) rfl
      (by simp [get_secondary_files])).2
      [PyVal.dict [("class", .str "File"), ("location", .str "g")]]
      [InputFile.mk Option.none (.str "g") Option.none []]
      rfl hg
